import Mathlib

/-!
Shallow embedding of the sprb-deploy frontend core: the `GalleryViewer`
navigation controller (wheel / touch-swipe / keyboard / indicator-dot input
channels over a wrap-around current index), the zoomable-map viewport
transform configuration, and the icon layout mapper.

JavaScript's `%` operator is the truncated remainder, so it is embedded as
`Int.tmod`.  Item counts are `ℕ` (`images.length`), indices and deltas are
`ℤ`, and event coordinates (`deltaY`, `clientX`) are `ℚ`.
-/

/-- The navigation callbacks a `GalleryViewer` owner can receive:
`onIndexChange(idx)`, `onPrevious()`, `onNext()`. -/
inductive NavCallback where
  | indexChange (idx : ℤ)
  | previous
  | next
  deriving DecidableEq, Repr

/-- Which of the optional navigation callbacks the owner wired up
(`onIndexChange?`, `onPrevious?`, `onNext?` in `GalleryViewerProps`). -/
structure Channels where
  hasIndexChange : Bool
  hasPrevious : Bool
  hasNext : Bool
  deriving DecidableEq, Repr

/-- The next-index computation inside `changeIndexBy`:
`(currentIndex + delta + images.length) % images.length` with JavaScript's
truncated `%` (`Int.tmod`). -/
def jsStep (n : ℕ) (i d : ℤ) : ℤ :=
  Int.tmod (i + d + n) n

/-- The spec's step formula (§4.5), read with JavaScript `%` semantics:
`((currentIndex + delta) % itemCount + itemCount) % itemCount`.  This is the
spec-side definition used to compare the code's `jsStep` against. -/
def specStep (n : ℕ) (i d : ℤ) : ℤ :=
  Int.tmod (Int.tmod (i + d) n + n) n

/-- `changeIndexBy(delta)` from `GalleryViewer`: bail out when there are no
images, otherwise compute the wrapped next index and notify through
`onIndexChange` when wired, else fall back to `onPrevious`/`onNext`
depending on the sign of the delta. -/
def changeIndexBy (ch : Channels) (n : ℕ) (i d : ℤ) : Option NavCallback :=
  if n = 0 then none
  else if ch.hasIndexChange then some (NavCallback.indexChange (jsStep n i d))
  else if d < 0 ∧ ch.hasPrevious then some NavCallback.previous
  else if 0 < d ∧ ch.hasNext then some NavCallback.next
  else none

/-- Iterated stepping: fold a list of deltas through `jsStep`. -/
def stepMany (n : ℕ) (i : ℤ) (ds : List ℤ) : ℤ :=
  ds.foldl (jsStep n) i

/-- `handleWheel` from `GalleryViewer`: ignore the event when the viewer is
closed or there are at most one image, otherwise forward `+1` for a positive
vertical delta and `-1` otherwise.  Returns the delta passed to
`changeIndexBy`, `none` when no navigation happens. -/
def handleWheel (isOpen : Bool) (n : ℕ) (deltaY : ℚ) : Option ℤ :=
  if isOpen = false ∨ n ≤ 1 then none
  else some (if 0 < deltaY then 1 else -1)

/-- The indicator-dot `onClick` handler (`jumpTo`): call `onIndexChange(idx)`
directly when wired, otherwise fall back to a single relative
`changeIndexBy(±1)` toward the clicked dot. -/
def jumpTo (ch : Channels) (n : ℕ) (i idx : ℤ) : Option NavCallback :=
  if ch.hasIndexChange then some (NavCallback.indexChange idx)
  else if idx ≠ i then changeIndexBy ch n i (if i < idx then 1 else -1)
  else none

/-- Clamping a target index into `[0, itemCount-1]`, as the spec's `jumpTo`
contract demands (spec-side definition, used to compare against `jumpTo`). -/
def clampIndex (n : ℕ) (idx : ℤ) : ℤ :=
  max 0 (min idx ((n : ℤ) - 1))

/-- Whether a touch move trips the 50-unit swipe threshold
(`Math.abs(diff) > 50` in `onTouchMove`, where `diff = touchStartX - clientX`). -/
def touchExceeds (x0 x : ℚ) : Bool :=
  decide (50 < |x0 - x|)

/-- The delta emitted by a triggering swipe (`diff > 0 ? 1 : -1`). -/
def swipeDelta (x0 x : ℚ) : ℤ :=
  if 0 < x0 - x then 1 else -1

/-- Processing a list of `onTouchMove` x-coordinates against the
`touchStartX` ref (`none` once the gesture has been consumed or ended):
each move either fires one `changeIndexBy(±1)` and clears the ref, or leaves
the state unchanged.  Returns the list of emitted deltas. -/
def runTouchMoves : Option ℚ → List ℚ → List ℤ
  | _, [] => []
  | none, _ :: xs => runTouchMoves none xs
  | some x0, x :: xs =>
    if touchExceeds x0 x then swipeDelta x0 x :: runTouchMoves none xs
    else runTouchMoves (some x0) xs

/-- One continuous touch: `onTouchStart` records `x0`, then the listed moves
are processed in order.  Result: the deltas handed to `changeIndexBy`. -/
def touchGesture (x0 : ℚ) (moves : List ℚ) : List ℤ :=
  runTouchMoves (some x0) moves

/-- Keys the `GalleryViewer` document-level keydown handler distinguishes. -/
inductive Key where
  | arrowLeft
  | arrowRight
  | escape
  | other
  deriving DecidableEq, Repr

/-- What an input event ultimately emits: a navigation callback or `onClose`. -/
inductive Emission where
  | nav (c : NavCallback)
  | close
  deriving DecidableEq, Repr

/-- The keydown handler: inert while the viewer is closed; ArrowLeft steps
`-1`, ArrowRight steps `+1`, Escape closes, anything else is ignored. -/
def keyHandler (isOpen : Bool) (ch : Channels) (n : ℕ) (i : ℤ) (k : Key) : Option Emission :=
  if isOpen = false then none
  else
    match k with
    | Key.arrowLeft => (changeIndexBy ch n i (-1)).map Emission.nav
    | Key.arrowRight => (changeIndexBy ch n i 1).map Emission.nav
    | Key.escape => some Emission.close
    | Key.other => none

/-- The indicator dots rendered by `GalleryViewer`: one per image, present
only when `images.length > 1`. -/
def indicatorDots (n : ℕ) : List ℕ :=
  if 1 < n then List.range n else []

/-- Whether `GalleryViewer` renders anything:
`if (!isOpen || images.length === 0) return null`. -/
def rendersViewer (isOpen : Bool) (n : ℕ) : Bool :=
  isOpen && decide (n ≠ 0)

/-- The `transformConfig` object built identically in `ZoomableOverviewMap`,
`ZoomableMapContainer` and `ZoomableIslandMap`. -/
structure TransformConfig where
  minScale : ℚ
  maxScale : ℚ
  initialScale : ℚ
  wheelDisabled : Bool
  pinchDisabled : Bool
  panDisabled : Bool
  doubleClickDisabled : Bool
  doubleClickStep : ℚ
  deriving DecidableEq, Repr

/-- `transformConfig` from the map components.  `isTouch` is
`isMobile || isTablet`; the remaining arguments are the component props
(defaults `minScale = 0.5`, `maxScale = 3`, `initialScale = 1`). -/
def transformConfig (isTouch : Bool) (minScale maxScale initialScale : ℚ) : TransformConfig where
  minScale := if isTouch then 4/5 else minScale
  maxScale := if isTouch then 4 else maxScale
  initialScale := if isTouch then 9/10 else initialScale
  wheelDisabled := isTouch
  pinchDisabled := false
  panDisabled := false
  doubleClickDisabled := false
  doubleClickStep := 7/10

/-- The measured image geometry `ZoomableMapContainer` passes to each
`MapIconComponent`: `{ width, height, offsetLeft, offsetTop }`. -/
structure ImageLayout where
  width : ℚ
  height : ℚ
  offsetLeft : ℚ
  offsetTop : ℚ
  deriving DecidableEq, Repr

/-- A computed icon placement: pixel position plus rendered size. -/
structure IconLayout where
  pixelX : ℚ
  pixelY : ℚ
  pixelSize : ℚ
  deriving DecidableEq, Repr

/-- Modelled from the spec: the icon layout mapper (`MapIconComponent`,
`frontend/src/components/MapIcon.tsx`) is not among the provided source
files; only its caller `ZoomableMapContainer` is, which hands it the
measured `imageLayout` and the responsive `scale`.  Spec §4.3:
`pixelX = imageOffsetX + (xPercent/100)·imageWidth`,
`pixelY = imageOffsetY + (yPercent/100)·imageHeight`,
`pixelSize = sizePixels·scale`. -/
def layoutIcon (g : ImageLayout) (scale xPercent yPercent sizePixels : ℚ) : IconLayout where
  pixelX := g.offsetLeft + xPercent / 100 * g.width
  pixelY := g.offsetTop + yPercent / 100 * g.height
  pixelSize := sizePixels * scale

/-! ### Arithmetic helper lemmas about `Int.tmod` -/

/-- Truncated remainder by a positive modulus is strictly above `-n`. -/
theorem neg_lt_tmod (a n : ℤ) (hn : 0 < n) : -n < a.tmod n := by
  rcases le_or_lt 0 a with h | h
  · have h2 := Int.tmod_nonneg n h
    linarith
  · have h3 : (-a).tdiv n = -(a.tdiv n) := Int.neg_tdiv a n
    have h1 := Int.tmod_add_tdiv (-a) n
    have h2 := Int.tmod_add_tdiv a n
    have h4 : (-a).tmod n < n := Int.tmod_lt_of_pos (-a) hn
    rw [h3] at h1
    linarith

/-- The truncated remainder is congruent to the dividend modulo `b`. -/
theorem tmod_emod (a b : ℤ) : a.tmod b % b = a % b := by
  conv_rhs => rw [← Int.tmod_add_tdiv a b]
  rw [Int.add_mul_emod_self_left]

/-- When the shifted argument is non-negative, `jsStep` is the Euclidean
remainder of `currentIndex + delta`. -/
theorem jsStep_eq_emod (n : ℕ) (i d : ℤ) (h : 0 ≤ i + d + n) :
    jsStep n i d = (i + d) % n := by
  unfold jsStep
  rw [Int.tmod_eq_emod h (Int.natCast_nonneg n)]
  have h1 : i + d + (n : ℤ) = i + d + (n : ℤ) * 1 := by ring
  rw [h1, Int.add_mul_emod_self_left]

/-- For a positive item count, the spec formula is the Euclidean remainder of
`currentIndex + delta` — for every integer delta. -/
theorem specStep_eq_emod (n : ℕ) (hn : 1 ≤ n) (i d : ℤ) :
    specStep n i d = (i + d) % n := by
  unfold specStep
  have hn' : (0 : ℤ) < n := by exact_mod_cast hn
  have hlb : -(n : ℤ) < (i + d).tmod n := neg_lt_tmod _ _ hn'
  have h0 : 0 ≤ (i + d).tmod n + n := by linarith
  rw [Int.tmod_eq_emod h0 (le_of_lt hn')]
  have h1 : (i + d).tmod n + (n : ℤ) = (i + d).tmod n + (n : ℤ) * 1 := by ring
  rw [h1, Int.add_mul_emod_self_left, tmod_emod]

/-- `jsStep` stays inside `[0, n-1]` whenever the shifted argument is
non-negative. -/
theorem jsStep_bounds (n : ℕ) (hn : 1 ≤ n) (i d : ℤ) (h : 0 ≤ i + d + n) :
    0 ≤ jsStep n i d ∧ jsStep n i d < n := by
  rw [jsStep_eq_emod n i d h]
  have hn' : (0 : ℤ) < n := by exact_mod_cast hn
  exact ⟨Int.emod_nonneg _ (ne_of_gt hn'), Int.emod_lt_of_pos _ hn'⟩

/-! ### Claim theorems -/

/-- C1 (corrected): the code's step diverges from the spec formula for large
negative deltas.  At `itemCount = 3`, `currentIndex = 0`, `delta = -4`,
`changeIndexBy` computes `-1` while the spec formula gives `2`. -/
theorem c1_counterexample :
    jsStep 3 0 (-4) = -1 ∧ specStep 3 0 (-4) = 2 ∧ jsStep 3 0 (-4) ≠ specStep 3 0 (-4) := by
  decide

/-- C1 (amended): for `itemCount ≥ 1`, `currentIndex ∈ [0, itemCount-1]` and
every delta with `currentIndex + delta + itemCount ≥ 0` (in particular
`delta = ±1`), the code's next index equals the spec formula
`((currentIndex + delta) % itemCount + itemCount) % itemCount`. -/
theorem c1_step_matches_spec (n : ℕ) (i d : ℤ) (hn : 1 ≤ n) (hi : 0 ≤ i)
    (hin : i < n) (hd : -(i + n) ≤ d) : jsStep n i d = specStep n i d := by
  have h0 : 0 ≤ i + d + n := by linarith
  rw [jsStep_eq_emod n i d h0, specStep_eq_emod n hn i d]

/-- C1 witness: with `itemCount = 3` and `currentIndex = 0`, `step(-1)`
matches the spec formula and yields `2`. -/
theorem c1_step_matches_spec_witness :
    jsStep 3 0 (-1) = specStep 3 0 (-1) ∧ jsStep 3 0 (-1) = 2 :=
  ⟨c1_step_matches_spec 3 0 (-1) (by decide) (by decide) (by decide) (by decide), by decide⟩

/-- C2 (corrected): a single step with `delta = -4` from `currentIndex = 0`
at `itemCount = 3` leaves the range `[0, 2]`: the result is `-1`. -/
theorem c2_counterexample :
    stepMany 3 0 [-4] = -1 ∧ ¬(0 ≤ stepMany 3 0 [-4] ∧ stepMany 3 0 [-4] < 3) := by
  decide

/-- C2 (amended): for `itemCount ≥ 1` and any sequence of step calls whose
deltas are all `≥ -itemCount` (every input channel uses `±1`), the current
index stays in `[0, itemCount-1]`. -/
theorem c2_invariant (n : ℕ) (i : ℤ) (ds : List ℤ) (hn : 1 ≤ n) (hi : 0 ≤ i)
    (hin : i < n) (hds : ∀ d ∈ ds, -(n : ℤ) ≤ d) :
    0 ≤ stepMany n i ds ∧ stepMany n i ds < n := by
  induction ds generalizing i with
  | nil => exact ⟨hi, hin⟩
  | cons d ds ih =>
    have hd : -(n : ℤ) ≤ d := hds d (List.mem_cons_self d ds)
    have h0 : 0 ≤ i + d + n := by linarith
    have hb := jsStep_bounds n hn i d h0
    exact ih (jsStep n i d) hb.1 hb.2 (fun e he => hds e (List.mem_cons_of_mem d he))

/-- C2 witness: a concrete mixed-delta sequence stays in range. -/
theorem c2_invariant_witness :
    0 ≤ stepMany 3 0 [1, -1, -3, 2] ∧ stepMany 3 0 [1, -1, -3, 2] < 3 :=
  c2_invariant 3 0 [1, -1, -3, 2] (by decide) (by decide) (by decide) (by decide)

/-- C9: for `itemCount ≥ 1` and any `currentIndex ∈ [0, itemCount-1]`,
`step(1)` followed by `step(-1)` restores the original index. -/
theorem c9_round_trip (n : ℕ) (i : ℤ) (hn : 1 ≤ n) (hi : 0 ≤ i) (hin : i < n) :
    jsStep n (jsStep n i 1) (-1) = i := by
  have hn' : (0 : ℤ) < n := by exact_mod_cast hn
  have h1 : jsStep n i 1 = (i + 1) % n := jsStep_eq_emod n i 1 (by linarith)
  have hj0 : 0 ≤ (i + 1) % (n : ℤ) := Int.emod_nonneg _ (ne_of_gt hn')
  have h2 : jsStep n ((i + 1) % n) (-1) = ((i + 1) % (n : ℤ) + -1) % n :=
    jsStep_eq_emod n _ (-1) (by linarith)
  rw [h1, h2, Int.emod_add_emod]
  have h3 : i + 1 + -1 = i := by ring
  rw [h3, Int.emod_eq_of_lt hi hin]

/-- C9 witness: at `itemCount = 3`, starting from index `2`. -/
theorem c9_round_trip_witness : jsStep 3 (jsStep 3 2 1) (-1) = 2 :=
  c9_round_trip 3 2 (by decide) (by decide) (by decide)

/-- C3 (corrected): with `onIndexChange` wired, the indicator-dot handler
passes an out-of-range target through unclamped: target `5` at
`itemCount = 3` is forwarded as `5`, not clamped to `2`. -/
theorem c3_counterexample :
    jumpTo ⟨true, false, false⟩ 3 0 5 = some (NavCallback.indexChange 5)
      ∧ clampIndex 3 5 = 2
      ∧ jumpTo ⟨true, false, false⟩ 3 0 5 ≠ some (NavCallback.indexChange (clampIndex 3 5)) := by
  decide

/-- C3 (amended): with `onIndexChange` wired, `jumpTo` forwards the target
index directly and unclamped (which coincides with the clamped value for
every in-range target — the only targets the indicator dots produce) and
never raises an error; with only legacy callbacks it performs exactly one
`step(+1)` when the target is greater than the current index and one
`step(-1)` when it is smaller. -/
theorem c3_jump_to (ch : Channels) (n : ℕ) (i idx : ℤ) :
    (ch.hasIndexChange = true → jumpTo ch n i idx = some (NavCallback.indexChange idx))
    ∧ (ch.hasIndexChange = true → 0 ≤ idx → idx < n →
        jumpTo ch n i idx = some (NavCallback.indexChange (clampIndex n idx)))
    ∧ (ch.hasIndexChange = false → i < idx → jumpTo ch n i idx = changeIndexBy ch n i 1)
    ∧ (ch.hasIndexChange = false → idx < i → jumpTo ch n i idx = changeIndexBy ch n i (-1)) := by
  refine ⟨?_, ?_, ?_, ?_⟩
  · intro h
    simp [jumpTo, h]
  · intro h h0 h1
    have hc : clampIndex n idx = idx := by
      unfold clampIndex
      omega
    rw [hc]
    simp [jumpTo, h]
  · intro h hlt
    simp [jumpTo, h, ne_of_gt hlt, hlt]
  · intro h hlt
    simp [jumpTo, h, ne_of_lt hlt, not_lt_of_gt hlt]

/-- C3 witness: a wired in-range selection lands on the clamped value, and a
legacy-only selection degrades to one relative step. -/
theorem c3_jump_to_witness :
    jumpTo ⟨true, false, false⟩ 3 0 2 = some (NavCallback.indexChange (clampIndex 3 2))
      ∧ jumpTo ⟨false, true, true⟩ 3 0 2 = changeIndexBy ⟨false, true, true⟩ 3 0 1 :=
  ⟨(c3_jump_to ⟨true, false, false⟩ 3 0 2).2.1 rfl (by decide) (by decide),
   (c3_jump_to ⟨false, true, true⟩ 3 0 2).2.2.1 rfl (by decide)⟩

/-- C4: while the viewer is open with more than one image, a positive wheel
delta triggers `step(1)` and a negative one `step(-1)`; with the viewer
closed or at most one image, the wheel changes nothing. -/
theorem c4_wheel (n : ℕ) (dy : ℚ) :
    (1 < n → 0 < dy → handleWheel true n dy = some 1)
    ∧ (1 < n → dy < 0 → handleWheel true n dy = some (-1))
    ∧ (handleWheel false n dy = none)
    ∧ (∀ b : Bool, n ≤ 1 → handleWheel b n dy = none) := by
  refine ⟨?_, ?_, ?_, ?_⟩
  · intro hn hdy
    rw [handleWheel, if_neg (by simp; omega), if_pos hdy]
  · intro hn hdy
    rw [handleWheel, if_neg (by simp; omega), if_neg (by linarith)]
  · rw [handleWheel, if_pos (Or.inl rfl)]
  · intro b h
    rw [handleWheel, if_pos (Or.inr h)]

/-- C4 witness: the four wheel cases at concrete inputs. -/
theorem c4_wheel_witness :
    handleWheel true 3 2 = some 1
      ∧ handleWheel true 3 (-2) = some (-1)
      ∧ handleWheel false 3 2 = none
      ∧ handleWheel true 1 2 = none :=
  ⟨(c4_wheel 3 2).1 (by decide) (by norm_num),
   (c4_wheel 3 (-2)).2.1 (by decide) (by norm_num),
   (c4_wheel 3 2).2.2.1,
   (c4_wheel 1 2).2.2.2 true (by decide)⟩

/-- Once the swipe ref is cleared, no further move emits anything. -/
theorem runTouchMoves_none (xs : List ℚ) : runTouchMoves none xs = [] := by
  induction xs with
  | nil => rfl
  | cons x xs ih => simpa [runTouchMoves] using ih

/-- C5: within one continuous touch, the emitted deltas are exactly: the
sign delta of the first move whose displacement from the start exceeds the
50-unit threshold, if any (after which the gesture is reset and emits
nothing more), and nothing when no move exceeds the threshold.  The closed
conjuncts instantiate the spec's examples: a 30-unit displacement emits
nothing; a 51-unit displacement emits a single `+1` even if wild moves
follow; a 60-unit displacement to the right emits `-1`. -/
theorem c5_swipe :
    (∀ (x0 : ℚ) (moves : List ℚ),
        touchGesture x0 moves
          = ((moves.find? (touchExceeds x0)).map (swipeDelta x0)).toList)
    ∧ touchGesture 100 [70] = []
    ∧ touchGesture 100 [49, 300, 20] = [1]
    ∧ touchGesture 100 [160] = [-1] := by
  have hmain : ∀ (x0 : ℚ) (moves : List ℚ),
      touchGesture x0 moves
        = ((moves.find? (touchExceeds x0)).map (swipeDelta x0)).toList := by
    intro x0 moves
    unfold touchGesture
    induction moves with
    | nil => rfl
    | cons x xs ih =>
      rcases hx : touchExceeds x0 x with _ | _
      · simpa [runTouchMoves, hx, List.find?_cons] using ih
      · simp [runTouchMoves, hx, List.find?_cons, runTouchMoves_none]
  have e1 : touchExceeds 100 70 = false := by
    simp only [touchExceeds, decide_eq_false_iff_not, not_lt]
    rw [abs_of_pos (by norm_num : (0 : ℚ) < 100 - 70)]
    norm_num
  have e2 : touchExceeds 100 49 = true := by
    simp only [touchExceeds, decide_eq_true_eq]
    rw [abs_of_pos (by norm_num : (0 : ℚ) < 100 - 49)]
    norm_num
  have e3 : touchExceeds 100 160 = true := by
    simp only [touchExceeds, decide_eq_true_eq]
    rw [abs_of_neg (by norm_num : (100 : ℚ) - 160 < 0)]
    norm_num
  have s2 : swipeDelta 100 49 = 1 := by
    unfold swipeDelta
    rw [if_pos (by norm_num : (0 : ℚ) < 100 - 49)]
  have s3 : swipeDelta 100 160 = -1 := by
    unfold swipeDelta
    rw [if_neg (by norm_num : ¬(0 : ℚ) < 100 - 160)]
  refine ⟨hmain, ?_, ?_, ?_⟩
  · rw [hmain]
    simp [List.find?, e1]
  · rw [hmain]
    simp [List.find?, e2, s2]
  · rw [hmain]
    simp [List.find?, e3, s3]

/-- C6: with an empty image list every channel is inert — `changeIndexBy`
returns without notifying, the wheel handler ignores the event, the arrow
keys produce nothing, no indicator dots exist — and the viewer renders
nothing even when asked to open. -/
theorem c6_empty_gallery :
    (∀ (ch : Channels) (i d : ℤ), changeIndexBy ch 0 i d = none)
    ∧ (∀ (b : Bool) (dy : ℚ), handleWheel b 0 dy = none)
    ∧ (∀ (b : Bool) (ch : Channels) (i : ℤ),
        keyHandler b ch 0 i Key.arrowLeft = none ∧ keyHandler b ch 0 i Key.arrowRight = none)
    ∧ indicatorDots 0 = []
    ∧ rendersViewer true 0 = false := by
  refine ⟨fun ch i d => ?_, fun b dy => ?_, fun b ch i => ?_, by decide, rfl⟩
  · simp [changeIndexBy]
  · simp [handleWheel]
  · cases b <;> simp [keyHandler, changeIndexBy]

/-- C7 (spec-modelled): the icon layout places each icon at
`pixelX = offsetLeft + (xPercent/100)·width`,
`pixelY = offsetTop + (yPercent/100)·height`, with
`pixelSize = sizePixels·scale`; on the spec's scenario geometry
(`width 200, height 100, offsets (10,5)`, scale 1) icon `a = (0,0)` lands at
`(10,5)` and icon `b = (100,100)` at `(210,105)`. -/
theorem c7_icon_layout :
    (∀ (g : ImageLayout) (s xP yP sz : ℚ),
        (layoutIcon g s xP yP sz).pixelX = g.offsetLeft + xP / 100 * g.width
          ∧ (layoutIcon g s xP yP sz).pixelY = g.offsetTop + yP / 100 * g.height
          ∧ (layoutIcon g s xP yP sz).pixelSize = sz * s)
    ∧ layoutIcon ⟨200, 100, 10, 5⟩ 1 0 0 30 = ⟨10, 5, 30⟩
    ∧ layoutIcon ⟨200, 100, 10, 5⟩ 1 100 100 30 = ⟨210, 105, 30⟩ := by
  refine ⟨fun g s xP yP sz => ⟨rfl, rfl, rfl⟩, ?_, ?_⟩
  · simp only [layoutIcon, IconLayout.mk.injEq]
    norm_num
  · simp only [layoutIcon, IconLayout.mk.injEq]
    norm_num

/-- C8 (corrected): on a pointer-only tier the configuration enables
wheel-to-zoom but does not disable pinch or pan — both stay enabled,
contradicting the claimed "reverse" policy. -/
theorem c8_counterexample :
    (transformConfig false (1/2) 3 1).wheelDisabled = false
      ∧ (transformConfig false (1/2) 3 1).pinchDisabled = false
      ∧ (transformConfig false (1/2) 3 1).panDisabled = false := by
  decide

/-- C8 (amended): the gesture toggles are a pure function of the device
tier: wheel-to-zoom is disabled exactly on touch-capable tiers, while pinch
and pan are enabled on every tier (never disabled on pointer-only tiers). -/
theorem c8_transform_config (t : Bool) (mn mx ini : ℚ) :
    (transformConfig t mn mx ini).wheelDisabled = t
      ∧ (transformConfig t mn mx ini).pinchDisabled = false
      ∧ (transformConfig t mn mx ini).panDisabled = false :=
  ⟨rfl, rfl, rfl⟩

/-- C10: a wheel event with vertical delta exactly `0`, with the viewer open
and more than one image, is treated like a negative delta: `step(-1)`. -/
theorem c10_zero_wheel (n : ℕ) (hn : 1 < n) : handleWheel true n 0 = some (-1) := by
  rw [handleWheel, if_neg (by simp; omega), if_neg (by norm_num)]

/-- C10 witness: two images, zero delta. -/
theorem c10_zero_wheel_witness : handleWheel true 2 0 = some (-1) :=
  c10_zero_wheel 2 (by decide)
